import Mathlib

/-!
Verification of the Panasonic Aquarea Home Assistant integration
(`custom_components/panasonic_aquarea`): a shallow embedding of the
coordinator's device store, the climate zone entity and the water-heater
entity, with their optimistic set-temperature / set-operation-mode
pipelines, together with proofs of the specified properties.

Conventions of the embedding:
* Python numbers are modelled as rationals (`ℚ`); `int()` truncation is
  `pyInt`.
* A Python dict key that may be absent, and an object attribute that may
  be missing or `None`, are modelled as `Option` fields; `d.get(k)`
  is the `Option` value itself and `d.get(k, default)` is `Option.getD`.
* Remote API objects are modelled by their method table: an association
  list from method name to the outcome of calling it (`true` = the call
  returns, `false` = it raises).  `hasattr` is `lookup … |>.isSome`.
-/

namespace Aquarea

/-- Python `int()` on a rational: truncation toward zero.  `Int.div`
uses the T-rounding (truncate) convention, matching Python's `int()`
applied to `q.num / q.den`. -/
def pyInt (q : ℚ) : ℤ := q.num.tdiv (q.den : ℤ)

/-- A structured zone object (`aioaquarea` zone inside `device.status.zones`):
`zone_id`, optional `temperature` and `target_temperature` attributes, and
the table of remote methods the zone object exposes
(`set_target_temperature`, `set_temperature`, …). -/
structure StructZone where
  zone_id : ℤ
  name : Option String
  temperature : Option ℚ
  target_temperature : Option ℚ
  operation_status : Option ℤ
  eco_offset : Option ℚ
  comfort_offset : Option ℚ
  methods : List (String × Bool)
deriving DecidableEq, Repr

/-- A structured tank object (`device.status.tank`): optional temperature
attributes and its remote method table. -/
structure StructTank where
  temperature : Option ℚ
  target_temperature : Option ℚ
  methods : List (String × Bool)
deriving DecidableEq, Repr

/-- The structured `device.status` object.  `zones`/`tank` are `none` when
the attribute is missing (`hasattr` is false) or holds `None`. -/
structure StructStatus where
  zones : Option (List StructZone)
  tank : Option StructTank
deriving DecidableEq, Repr

/-- The `aioaquarea` device object: its optional `status` attribute
(`none` models a missing or falsy `device.status`) and its remote method
table (`set_zone_temperature`, `set_tank_target_temperature`, …). -/
structure Device where
  status : Option StructStatus
  methods : List (String × Bool)
deriving DecidableEq, Repr

/-- One element of the raw JSON `status.zoneStatus` list.  Every key may
be absent. -/
structure RawZone where
  zoneId : Option ℤ
  zoneName : Option String
  operationStatus : Option ℤ
  temperatureNow : Option ℚ
  heatSet : Option ℚ
  ecoOffset : Option ℚ
  comfortOffset : Option ℚ
deriving DecidableEq, Repr

/-- The raw JSON `status.tankStatus` dict. -/
structure RawTank where
  operationStatus : Option ℤ
  temperatureNow : Option ℚ
  heatSet : Option ℚ
  ecoTemp : Option ℚ
  comfortTemp : Option ℚ
deriving DecidableEq, Repr

/-- The raw JSON `status` dict (only the keys the verified operations
touch). -/
structure RawStatus where
  operationMode : Option ℤ
  forceDHW : Option ℤ
  ecoMode : Option ℤ
  comfortMode : Option ℤ
  zoneStatus : Option (List RawZone)
  tankStatus : Option RawTank
deriving DecidableEq, Repr

/-- The raw JSON payload stored under the `raw_data` key of a device
entry. -/
structure RawData where
  a2wName : Option String
  status : Option RawStatus
deriving DecidableEq, Repr

/-- A device entry of the coordinator store
(`AquareaDataUpdateCoordinator._async_update_data` stores
`{"info": …, "device": …, "status": …, "raw_data": …}`).  The `info` and
derived `status` keys are opaque to the verified operations; `stale`
models a `"stale"` key of the entry dict — the specification postulates
such a marking, and the field records whether the code ever writes one
(the coordinator never does, so code-built entries carry `none`). -/
structure DeviceEntry where
  device : Option Device
  rawData : Option RawData
  stale : Option Bool
deriving DecidableEq, Repr

/-- First zone of a structured zone list whose `zone_id` matches and whose
`temperature` attribute is not `None` (the getter loop in
`AquareaClimate.current_temperature` keeps scanning — it has no `break` —
when the matching zone's value is `None`). -/
def firstStructTemp (zs : List StructZone) (zoneId : ℤ) : Option ℚ :=
  match zs with
  | [] => none
  | z :: rest =>
    if z.zone_id = zoneId then
      match z.temperature with
      | some v => some v
      | none => firstStructTemp rest zoneId
    else firstStructTemp rest zoneId

/-- First zone of a structured zone list whose `zone_id` matches and whose
`target_temperature` is not `None` (`AquareaClimate.target_temperature`,
structured branch). -/
def firstStructTarget (zs : List StructZone) (zoneId : ℤ) : Option ℚ :=
  match zs with
  | [] => none
  | z :: rest =>
    if z.zone_id = zoneId then
      match z.target_temperature with
      | some v => some v
      | none => firstStructTarget rest zoneId
    else firstStructTarget rest zoneId

/-- The structured-data branch of `AquareaClimate.target_temperature`:
`device.status.zones` consulted only when `device.status` is truthy and
has a `zones` attribute. -/
def structuredZoneTarget (dev : Device) (zoneId : ℤ) : Option ℚ :=
  match dev.status with
  | some st =>
    match st.zones with
    | some zs => firstStructTarget zs zoneId
    | none => none
  | none => none

/-- The structured-data branch of `AquareaClimate.current_temperature`. -/
def structuredZoneTemp (dev : Device) (zoneId : ℤ) : Option ℚ :=
  match dev.status with
  | some st =>
    match st.zones with
    | some zs => firstStructTemp zs zoneId
    | none => none
  | none => none

/-- Raw-data fallback of `AquareaClimate.current_temperature`: the first
matching `zoneStatus` element with a `temperatureNow` yields
`float(temperatureNow) / 10.0`. -/
def firstRawCurrent (zs : List RawZone) (zoneId : ℤ) : Option ℚ :=
  match zs with
  | [] => none
  | z :: rest =>
    if z.zoneId = some zoneId then
      match z.temperatureNow with
      | some v => some (v / 10)
      | none => firstRawCurrent rest zoneId
    else firstRawCurrent rest zoneId

/-- Raw-data fallback of `AquareaClimate.target_temperature`: the first
matching `zoneStatus` element with both `temperatureNow` and `heatSet`
yields `(float(temperatureNow) + float(heatSet)) / 10.0`. -/
def firstRawTarget (zs : List RawZone) (zoneId : ℤ) : Option ℚ :=
  match zs with
  | [] => none
  | z :: rest =>
    if z.zoneId = some zoneId then
      match z.temperatureNow, z.heatSet with
      | some tn, some hs => some ((tn + hs) / 10)
      | _, _ => firstRawTarget rest zoneId
    else firstRawTarget rest zoneId

/-- `zoneStatus` list of an optional entry, when every dict level is
present. -/
def rawZonesOf (e : DeviceEntry) : Option (List RawZone) :=
  match e.rawData with
  | some raw =>
    match raw.status with
    | some st => st.zoneStatus
    | none => none
  | none => none

/-- `AquareaClimate.current_temperature`: structured `device.status.zones`
first, then the raw `zoneStatus` fallback.  `none` when the coordinator
has no entry for the device. -/
def climateCurrentTemperature (e? : Option DeviceEntry) (zoneId : ℤ) : Option ℚ :=
  match e? with
  | none => none
  | some e =>
    let structRes : Option ℚ :=
      match e.device with
      | some dev => structuredZoneTemp dev zoneId
      | none => none
    match structRes with
    | some v => some v
    | none =>
      match rawZonesOf e with
      | some zs => firstRawCurrent zs zoneId
      | none => none

/-- `AquareaClimate.target_temperature`: `none` when the entry or its
`device` is missing; otherwise structured target first, then the raw
`(temperatureNow + heatSet) / 10` fallback. -/
def climateTargetTemperature (e? : Option DeviceEntry) (zoneId : ℤ) : Option ℚ :=
  match e? with
  | none => none
  | some e =>
    match e.device with
    | none => none
    | some dev =>
      match structuredZoneTarget dev zoneId with
      | some v => some v
      | none =>
        match rawZonesOf e with
        | some zs => firstRawTarget zs zoneId
        | none => none

/-! ## Remote invocation candidates

Both setters probe a fixed, hand-written list of candidate method names
with `hasattr` before calling; a raised call is caught and the loop (or
`elif` chain) moves on. -/

/-- The candidate device methods tried, in order, by
`AquareaClimate.async_set_temperature` (the `api_methods` literal built
afresh on every call). -/
def temperatureApiMethods : List String :=
  ["set_zone_temperature", "set_heating_temperature", "set_target_temperature"]

/-- The candidate device methods tried, in order, by
`AquareaClimate.async_set_hvac_mode`. -/
def hvacApiMethods : List String :=
  ["set_operation_mode", "set_hvac_mode", "set_mode"]

/-- The `for method_name in api_methods` probing loop: skip a missing
attribute, stop successfully on a call that returns, continue past a
call that raises. -/
def tryMethods (methods : List (String × Bool)) (names : List String) : Bool :=
  match names with
  | [] => false
  | n :: rest =>
    match methods.lookup n with
    | some true => true
    | some false => tryMethods methods rest
    | none => tryMethods methods rest

/-- An `if hasattr … : call / elif hasattr … : call / …` chain inside one
`try` block (water-heater temperature setter): only the first existing
method is ever called, and its outcome — success or raise — ends the
chain. -/
def firstAvailable (methods : List (String × Bool)) (names : List String) : Option Bool :=
  match names with
  | [] => none
  | n :: rest =>
    match methods.lookup n with
    | some b => some b
    | none => firstAvailable methods rest

/-- The remote phase of `AquareaClimate.async_set_temperature`: device
candidates in order, then — if none succeeded and the structured status
exposes a zone list long enough — the zone object picked by position
`zones[zone_id - 1]`, with its own candidate list.  Modelled for the
positive zone ids the integration creates entities for (climate entities
exist only for zone id 1). -/
def climateRemotePhase (dev : Device) (zoneId : ℤ) : Bool :=
  if tryMethods dev.methods temperatureApiMethods then true
  else
    match dev.status with
    | some st =>
      match st.zones with
      | some zs =>
        if zs ≠ [] ∧ (zoneId - 1).toNat < zs.length then
          match zs.get? (zoneId - 1).toNat with
          | some zone => tryMethods zone.methods ["set_target_temperature", "set_temperature"]
          | none => false
        else false
      | none => false
    | none => false

/-- In-place update of the first `zoneStatus` element whose `zoneId`
matches (the mutation loop `break`s after the first hit). -/
def updateFirstZone (zs : List RawZone) (zoneId : ℤ) (f : RawZone → RawZone) :
    List RawZone :=
  match zs with
  | [] => []
  | z :: rest =>
    if z.zoneId = some zoneId then f z :: rest
    else z :: updateFirstZone rest zoneId f

/-- The optimistic mutation applied to the matching zone:
`heatSet = int(temperature * 10) - zone_status.get('temperatureNow', 200)`. -/
def setHeatOffset (t : ℚ) (z : RawZone) : RawZone :=
  { z with heatSet := some ((pyInt (t * 10) : ℚ) - z.temperatureNow.getD 200) }

/-- Result of a set-temperature call: the (possibly mutated) entry, whether
the remote phase was entered, and whether some remote candidate succeeded. -/
structure ClimateSetResult where
  entry : DeviceEntry
  remoteAttempted : Bool
  apiSuccess : Bool
deriving DecidableEq, Repr

/-- `AquareaClimate.async_set_temperature` for one device entry:
1. reject a temperature outside −5..30 °C before touching anything;
2. optimistic mutation — write the recomputed `heatSet` offset into the
   first matching raw `zoneStatus` element (bail out, mutation-free, when
   the raw path or the zone is missing);
3. remote phase — probe the candidate methods; outcomes never touch the
   entry, so a failure never rolls the offset back. -/
def climateSetTemperature (e : DeviceEntry) (zoneId : ℤ) (t : ℚ) :
    ClimateSetResult :=
  if t < -5 ∨ 30 < t then ⟨e, false, false⟩
  else
    match e.rawData with
    | some raw =>
      match raw.status with
      | some st =>
        match st.zoneStatus with
        | some zs =>
          if zs.any (fun z => z.zoneId = some zoneId) then
            let zs' := updateFirstZone zs zoneId (setHeatOffset t)
            let e' : DeviceEntry :=
              { e with rawData := some { raw with status := some { st with zoneStatus := some zs' } } }
            match e.device with
            | some dev => ⟨e', true, climateRemotePhase dev zoneId⟩
            | none => ⟨e', false, false⟩
          else ⟨e, false, false⟩
        | none => ⟨e, false, false⟩
      | none => ⟨e, false, false⟩
    | none => ⟨e, false, false⟩

/-! ## Water heater entity -/

/-- Operation-mode strings from `const.py`. -/
def MODE_FORCE_DHW : String := "force_dhw"

/-- `COMFORT_ECO` from `const.py`. -/
def COMFORT_ECO : String := "eco"

/-- `COMFORT_NORMAL` from `const.py`. -/
def COMFORT_NORMAL : String := "normal"

/-- `COMFORT_COMFORT` from `const.py`. -/
def COMFORT_COMFORT : String := "comfort"

/-- Python dict lookup `d[k]` / `k in d` on an association list. -/
def lookupId {β : Type} (xs : List (String × β)) (id : String) : Option β :=
  match xs with
  | [] => none
  | (k, v) :: rest => if k = id then some v else lookupId rest id

/-- Python dict assignment `d[k] = v` on an association list: replace the
existing binding or append a new one. -/
def insertAssoc (xs : List (String × ℚ)) (k : String) (v : ℚ) :
    List (String × ℚ) :=
  match xs with
  | [] => [(k, v)]
  | (k', v') :: rest =>
    if k' = k then (k, v) :: rest else (k', v') :: insertAssoc rest k v

/-- The mutable state `AquareaWaterHeater` keeps on the entity itself:
its device id and the lazily created `_pending_temperature` dict
(`none` while the attribute does not exist yet). -/
structure WaterHeaterEntity where
  deviceId : String
  pending : Option (List (String × ℚ))
deriving DecidableEq, Repr

/-- `status.tankStatus` of an entry when every dict level is present. -/
def rawTankOf (e : DeviceEntry) : Option RawTank :=
  match e.rawData with
  | some raw =>
    match raw.status with
    | some st => st.tankStatus
    | none => none
  | none => none

/-- The snapshot part of `AquareaWaterHeater.target_temperature` (after
the pending-dict check): `none` without an entry or `device`; otherwise
the structured `device.status.tank.target_temperature`, then the raw
`tankStatus.heatSet` used as-is (whole degrees, no division). -/
def whTargetFromData (e? : Option DeviceEntry) : Option ℚ :=
  match e? with
  | none => none
  | some e =>
    match e.device with
    | none => none
    | some dev =>
      let structRes : Option ℚ :=
        match dev.status with
        | some st =>
          match st.tank with
          | some tank => tank.target_temperature
          | none => none
        | none => none
      match structRes with
      | some v => some v
      | none =>
        match rawTankOf e with
        | some tank => tank.heatSet
        | none => none

/-- `AquareaWaterHeater.target_temperature`: a pending temperature cached
for this device id wins over everything the coordinator snapshot holds. -/
def whTargetTemperature (ent : WaterHeaterEntity) (e? : Option DeviceEntry) :
    Option ℚ :=
  match ent.pending with
  | some ps =>
    match lookupId ps ent.deviceId with
    | some t => some t
    | none => whTargetFromData e?
  | none => whTargetFromData e?

/-- The remote phase of `AquareaWaterHeater.async_set_temperature`: one
`if hasattr / elif …` chain over the device methods inside a single
`try` (so a raising first candidate ends the chain), then — if that did
not succeed and a structured tank object exists — a second chain over the
tank methods. -/
def whRemotePhase (dev : Device) : Bool :=
  let devTry := firstAvailable dev.methods
    ["set_tank_target_temperature", "set_dhw_target_temperature", "set_temperature"]
  if devTry = some true then true
  else
    match dev.status with
    | some st =>
      match st.tank with
      | some tank =>
        firstAvailable tank.methods ["set_target_temperature", "set_temperature"] = some true
      | none => false
    | none => false

/-- Whether any remote candidate of the water-heater temperature pipeline
succeeds for an entry (`false` when the entry has no `device`). -/
def whApiSuccess (e : DeviceEntry) : Bool :=
  match e.device with
  | some dev => whRemotePhase dev
  | none => false

/-- Result of `AquareaWaterHeater.async_set_temperature`: the updated
entry, the updated `_pending_temperature` dict, whether the remote phase
ran and whether it succeeded. -/
structure WhSetResult where
  entry : Option DeviceEntry
  pending : Option (List (String × ℚ))
  remoteAttempted : Bool
  apiSuccess : Bool
deriving DecidableEq, Repr

/-- `AquareaWaterHeater.async_set_temperature`:
1. reject a temperature outside 40..75 °C before touching anything;
2. optimistic mutation — `tankStatus['heatSet'] = float(t)` plus, when a
   structured tank object exists, `device.status.tank.target_temperature
   = float(t)` (bail out, mutation-free, when the raw tank path is
   missing);
3. remote phase; on failure the requested value is cached in
   `_pending_temperature[device_id]` and nothing is rolled back. -/
def whSetTemperature (ent : WaterHeaterEntity) (e? : Option DeviceEntry) (t : ℚ) :
    WhSetResult :=
  if t < 40 ∨ 75 < t then ⟨e?, ent.pending, false, false⟩
  else
    match e? with
    | none => ⟨none, ent.pending, false, false⟩
    | some e =>
      match e.rawData with
      | some raw =>
        match raw.status with
        | some st =>
          match st.tankStatus with
          | some tank =>
            let tank' : RawTank := { tank with heatSet := some t }
            let dev' : Option Device :=
              match e.device with
              | some dev =>
                match dev.status with
                | some ss =>
                  match ss.tank with
                  | some stk =>
                    let stk' : StructTank := { stk with target_temperature := some t }
                    some { dev with status := some { ss with tank := some stk' } }
                  | none => some dev
                | none => some dev
              | none => none
            let e' : DeviceEntry :=
              { e with
                device := dev'
                rawData := some { raw with status := some { st with tankStatus := some tank' } } }
            match e.device with
            | some dev =>
              if whRemotePhase dev then ⟨some e', ent.pending, true, true⟩
              else
                ⟨some e', some (insertAssoc (ent.pending.getD []) ent.deviceId t),
                  true, false⟩
            | none =>
              ⟨some e', some (insertAssoc (ent.pending.getD []) ent.deviceId t),
                false, false⟩
          | none => ⟨some e, ent.pending, false, false⟩
        | none => ⟨some e, ent.pending, false, false⟩
      | none => ⟨some e, ent.pending, false, false⟩

/-- `AquareaWaterHeater.async_set_operation_mode`: when the entry has raw
status data, zero `forceDHW`/`ecoMode`/`comfortMode`, raise the one flag
matching the requested mode (none for normal; the source's `elif` chain
is written here as independent conditions, equivalent because the three
mode strings are pairwise distinct), and — when a raw `tankStatus`
exists — point `heatSet` at the eco (`ecoTemp`, default 55) or comfort
(`comfortTemp`, default 65) preset for those two modes. -/
def whSetOperationMode (e? : Option DeviceEntry) (mode : String) :
    Option DeviceEntry :=
  match e? with
  | none => none
  | some e =>
    match e.rawData with
    | some raw =>
      match raw.status with
      | some st =>
        let st1 : RawStatus :=
          { st with
            forceDHW := some (if mode = MODE_FORCE_DHW then 1 else 0)
            ecoMode := some (if mode = COMFORT_ECO then 1 else 0)
            comfortMode := some (if mode = COMFORT_COMFORT then 1 else 0) }
        let st2 : RawStatus :=
          match st1.tankStatus with
          | some tank =>
            if mode = COMFORT_ECO then
              { st1 with tankStatus := some { tank with heatSet := some (tank.ecoTemp.getD 55) } }
            else if mode = COMFORT_COMFORT then
              { st1 with tankStatus := some { tank with heatSet := some (tank.comfortTemp.getD 65) } }
            else st1
          | none => st1
        some { e with rawData := some { raw with status := some st2 } }
      | none => some e
    | none => some e

/-! ## Coordinator store update (`_async_update_data`) -/

/-- One poll tick of `AquareaDataUpdateCoordinator._async_update_data`.
`fetched` is the enumeration result paired with each device's per-device
outcome: `some entry` when the `try` block built an entry, `none` when it
raised.  A failed device keeps its previous entry verbatim when one
exists and is omitted otherwise; a device absent from the enumeration is
simply never written into the fresh `devices_data` dict.  Device ids in
one enumeration are assumed distinct (they key a remote-service dict). -/
def updateData (prev : List (String × DeviceEntry))
    (fetched : List (String × Option DeviceEntry)) :
    List (String × DeviceEntry) :=
  match fetched with
  | [] => []
  | (id, some e) :: rest => (id, e) :: updateData prev rest
  | (id, none) :: rest =>
    match lookupId prev id with
    | some old => (id, old) :: updateData prev rest
    | none => updateData prev rest

/-! ## Raw-data selection and zone-entity creation (live path)

In `_async_update_data`, after the search over possible response
attributes, `raw_data` is set unconditionally: the found JSON payload
when one exists, else the hard-coded 'Langagervej' payload.  The
structured-status extraction block further down (its guard starts with
`if not raw_data`) is therefore dead code and is not embedded. -/

/-- The hard-coded zone of the 'Langagervej' fallback payload: zoneId 1,
name `"House"`, `temperatureNow` 49 (4.9 °C), `heatSet` 5.  Keys outside
the modelled `RawZone` fields (`zoneType`, `heatMin`, …) are omitted;
the payload has no `ecoOffset`/`comfortOffset` keys. -/
def langagervejZone : RawZone :=
  { zoneId := some 1, zoneName := some "House", operationStatus := some 1,
    temperatureNow := some 49, heatSet := some 5, ecoOffset := none,
    comfortOffset := none }

/-- The hard-coded tank of the 'Langagervej' fallback payload: 61 °C now,
`heatSet` 60; it carries no `ecoTemp`/`comfortTemp` keys. -/
def langagervejTank : RawTank :=
  { operationStatus := some 1, temperatureNow := some 61, heatSet := some 60,
    ecoTemp := none, comfortTemp := none }

/-- The status dict of the 'Langagervej' fallback payload (restricted to
the modelled keys; it has no `ecoMode`/`comfortMode` keys). -/
def langagervejStatus : RawStatus :=
  { operationMode := some 1, forceDHW := some 0, ecoMode := none,
    comfortMode := none, zoneStatus := some [langagervejZone],
    tankStatus := some langagervejTank }

/-- The hard-coded 'Langagervej' payload substituted whenever no JSON
response is found for a device. -/
def langagervejData : RawData :=
  { a2wName := some "Langagervej", status := some langagervejStatus }

/-- The live raw-data selection of `_async_update_data`: a found JSON
payload is used as-is — its `zoneStatus` passes through with no
filtering at the coordinator level — and otherwise the hard-coded
'Langagervej' payload is substituted. -/
def rawDataForDevice (jsonData : Option RawData) : RawData :=
  match jsonData with
  | some j => j
  | none => langagervejData

/-- The `(zone_id, zone_name)` candidate `climate.async_setup_entry`
builds from one raw `zoneStatus` element: `zoneId` defaults to 1 and
`zoneName` to `"Zone {id}"`. -/
def zoneCandidate (z : RawZone) : ℤ × String :=
  (z.zoneId.getD 1, z.zoneName.getD ("Zone " ++ toString (z.zoneId.getD 1)))

/-- The zones `climate.async_setup_entry` creates entities for from a raw
payload's `zoneStatus` list: every element becomes a candidate, and an
entity is created only for the hard-coded zone id 1 with a truthy
(non-empty) name — every other id is skipped with a warning, regardless
of any manifest. -/
def climateEntityZones (raw : RawData) : List (ℤ × String) :=
  match raw.status with
  | some st =>
    match st.zoneStatus with
    | some zs => (zs.map zoneCandidate).filter (fun p => p.1 = 1 ∧ p.2 ≠ "")
    | none => []
  | none => []

/-- The ranked-candidate query for the zone set-temperature change kind,
as realized by the source: each call to
`AquareaClimate.async_set_temperature` rebuilds `api_methods` as the same
literal, and no success/failure tally is kept anywhere in the
integration, so the candidate order is a constant function of whatever
outcome history has been observed. -/
def rankedCandidates (_history : List (String × Bool)) : List String :=
  temperatureApiMethods

/-- Whether the first `zoneStatus` element with a matching `zoneId` has a
`temperatureNow` value (the shape on which the optimistic readback is
exact). -/
def firstMatchHasTemp (zs : List RawZone) (zid : ℤ) : Bool :=
  match zs with
  | [] => false
  | z :: rest =>
    if z.zoneId = some zid then z.temperatureNow.isSome
    else firstMatchHasTemp rest zid

/-! ## Helper lemmas -/

theorem lookupId_insertAssoc (xs : List (String × ℚ)) (k : String) (v : ℚ) :
    lookupId (insertAssoc xs k v) k = some v := by
  induction xs with
  | nil => simp [insertAssoc, lookupId]
  | cons p rest ih =>
    obtain ⟨k', v'⟩ := p
    by_cases h : k' = k
    · simp [insertAssoc, lookupId, h]
    · simp [insertAssoc, lookupId, h, ih]

theorem setHeatOffset_zoneId (t : ℚ) (z : RawZone) :
    (setHeatOffset t z).zoneId = z.zoneId := rfl

theorem firstMatchHasTemp_any (zs : List RawZone) (zid : ℤ)
    (h : firstMatchHasTemp zs zid = true) :
    zs.any (fun z => z.zoneId = some zid) = true := by
  induction zs with
  | nil => simp [firstMatchHasTemp] at h
  | cons z rest ih =>
    by_cases hz : z.zoneId = some zid
    · simp [List.any, hz]
    · rw [firstMatchHasTemp] at h
      rw [if_neg hz] at h
      simp [List.any, hz, ih h]

theorem firstRawTarget_updateFirstZone (zs : List RawZone) (zid : ℤ) (t : ℚ)
    (h : firstMatchHasTemp zs zid = true) :
    firstRawTarget (updateFirstZone zs zid (setHeatOffset t)) zid =
      some ((pyInt (t * 10) : ℚ) / 10) := by
  induction zs with
  | nil => simp [firstMatchHasTemp] at h
  | cons z rest ih =>
    by_cases hz : z.zoneId = some zid
    · rw [firstMatchHasTemp, if_pos hz] at h
      obtain ⟨tn, htn⟩ := Option.isSome_iff_exists.mp h
      rw [updateFirstZone, if_pos hz, firstRawTarget]
      rw [setHeatOffset_zoneId, if_pos hz]
      simp only [setHeatOffset, htn, Option.getD_some]
      ring_nf
    · rw [firstMatchHasTemp, if_neg hz] at h
      rw [updateFirstZone, if_neg hz, firstRawTarget, if_neg hz]
      exact ih h

theorem setHeatOffset_idem (t : ℚ) (z : RawZone) :
    setHeatOffset t (setHeatOffset t z) = setHeatOffset t z := rfl

theorem pyInt_intCast (n : ℤ) : pyInt (n : ℚ) = n := by
  simp [pyInt, Rat.num_intCast, Rat.den_intCast, Int.tdiv_one]

theorem some_ite_one_zero (c : Prop) [Decidable c] :
    (some (if c then (1 : ℤ) else 0) = some 1) ↔ c := by
  by_cases h : c <;> simp [h]

theorem any_updateFirstZone (zs : List RawZone) (zid : ℤ) (t : ℚ) :
    (updateFirstZone zs zid (setHeatOffset t)).any (fun z => z.zoneId = some zid) =
      zs.any (fun z => z.zoneId = some zid) := by
  induction zs with
  | nil => rfl
  | cons z rest ih =>
    by_cases hz : z.zoneId = some zid
    · simp [updateFirstZone, List.any, hz, setHeatOffset_zoneId]
    · simp [updateFirstZone, List.any, hz, ih]

theorem updateFirstZone_idem (zs : List RawZone) (zid : ℤ) (t : ℚ) :
    updateFirstZone (updateFirstZone zs zid (setHeatOffset t)) zid (setHeatOffset t) =
      updateFirstZone zs zid (setHeatOffset t) := by
  induction zs with
  | nil => rfl
  | cons z rest ih =>
    by_cases hz : z.zoneId = some zid
    · rw [updateFirstZone, if_pos hz, updateFirstZone]
      rw [setHeatOffset_zoneId, if_pos hz, setHeatOffset_idem]
    · rw [updateFirstZone, if_neg hz, updateFirstZone, if_neg hz, ih]

/-! ## Concrete fixtures used by witnesses and counterexamples -/

/-- An empty raw status dict (every optional key absent). -/
def emptyRawStatus : RawStatus :=
  { operationMode := none, forceDHW := none, ecoMode := none,
    comfortMode := none, zoneStatus := none, tankStatus := none }

/-- The zone payload of the specification's unit-conversion example:
`temperatureNow = 56` (tenths), `heatSet = 5` (tenths offset). -/
def exampleRawZone : RawZone :=
  { zoneId := some 1, zoneName := none, operationStatus := none,
    temperatureNow := some 56, heatSet := some 5, ecoOffset := none,
    comfortOffset := none }

/-- A device object with no structured status and no remote methods. -/
def bareDevice : Device := { status := none, methods := [] }

/-- Raw payload holding only the unit-conversion example zone. -/
def exampleRawData : RawData :=
  { a2wName := none
    status := some { emptyRawStatus with zoneStatus := some [exampleRawZone] } }

/-- Entry holding only the unit-conversion example zone payload. -/
def exampleEntry : DeviceEntry :=
  { device := some bareDevice
    rawData := some exampleRawData
    stale := none }

/-- The empty entry (device without data). -/
def emptyEntry : DeviceEntry := { device := none, rawData := none, stale := none }

/-! ## Claim theorems -/

/-- C2: normalization of a zone raw payload divides `temperatureNow` by 10
for the current temperature and produces the absolute target as
`(temperatureNow + heatSet) / 10` — so `temperatureNow = 56`,
`heatSet = 5` yield current 5.6 °C and target 6.1 °C. -/
theorem zone_unit_normalization (e : DeviceEntry) (dev : Device) (z : RawZone)
    (zid : ℤ) (tn hs : ℚ)
    (hdev : e.device = some dev) (hst : dev.status = none)
    (hzs : rawZonesOf e = some [z])
    (hid : z.zoneId = some zid) (htn : z.temperatureNow = some tn)
    (hhs : z.heatSet = some hs) :
    climateCurrentTemperature (some e) zid = some (tn / 10) ∧
    climateTargetTemperature (some e) zid = some ((tn + hs) / 10) := by
  constructor
  · simp [climateCurrentTemperature, structuredZoneTemp, hdev, hst, hzs,
      firstRawCurrent, hid, htn]
  · simp [climateTargetTemperature, structuredZoneTarget, hdev, hst, hzs,
      firstRawTarget, hid, htn, hhs]

/-- C2 witness: the payload `temperatureNow = 56`, `heatSet = 5` reads
back as current 5.6 °C and target 6.1 °C. -/
theorem zone_unit_normalization_witness :
    climateCurrentTemperature (some exampleEntry) 1 = some (5.6 : ℚ) ∧
    climateTargetTemperature (some exampleEntry) 1 = some (6.1 : ℚ) := by
  have h := zone_unit_normalization exampleEntry bareDevice exampleRawZone
    1 56 5 rfl rfl rfl rfl rfl rfl
  refine ⟨?_, ?_⟩
  · rw [h.1]; norm_num
  · rw [h.2]; norm_num

/-- C3: a requested target temperature outside −5..30 °C (zone) or
outside 40..75 °C (tank) is rejected before any mutation: the entry is
returned untouched and the remote phase is never entered. -/
theorem out_of_range_rejected (e : DeviceEntry) (ent : WaterHeaterEntity)
    (e? : Option DeviceEntry) (zid : ℤ) (tz tt : ℚ)
    (hz : tz < -5 ∨ 30 < tz) (ht : tt < 40 ∨ 75 < tt) :
    climateSetTemperature e zid tz = ⟨e, false, false⟩ ∧
    whSetTemperature ent e? tt = ⟨e?, ent.pending, false, false⟩ := by
  constructor
  · rw [climateSetTemperature, if_pos hz]
  · unfold whSetTemperature
    rw [if_pos ht]

/-- C3 witness: 31 °C (zone) and 39 °C (tank) are rejected without any
state change or remote attempt. -/
theorem out_of_range_rejected_witness :
    ((31 : ℚ) < -5 ∨ (30 : ℚ) < 31) ∧ ((39 : ℚ) < 40 ∨ (75 : ℚ) < 39) ∧
    climateSetTemperature emptyEntry 1 31 = ⟨emptyEntry, false, false⟩ ∧
    whSetTemperature { deviceId := "D", pending := none } none 39 =
      ⟨none, none, false, false⟩ := by
  have h := out_of_range_rejected emptyEntry
    { deviceId := "D", pending := none } none 1 31 39
    (by norm_num) (by norm_num)
  exact ⟨by norm_num, by norm_num, h.1, h.2⟩

/-- C4: applying the same zone set-temperature change twice in a row
leaves the entry in the same state as applying it once — the `heatSet`
offset is recomputed from the unchanged `temperatureNow`, so it does not
accumulate. -/
theorem set_temperature_idempotent (e : DeviceEntry) (zid : ℤ) (t : ℚ) :
    (climateSetTemperature (climateSetTemperature e zid t).entry zid t).entry =
      (climateSetTemperature e zid t).entry := by
  by_cases hr : t < -5 ∨ 30 < t
  · simp [climateSetTemperature, hr]
  · obtain ⟨dev?, raw?, stale?⟩ := e
    cases raw? with
    | none => simp [climateSetTemperature, hr]
    | some raw =>
      obtain ⟨nm, rst?⟩ := raw
      cases rst? with
      | none => simp [climateSetTemperature, hr]
      | some st =>
        obtain ⟨om, fd, em, cm, zs?, tk⟩ := st
        cases zs? with
        | none => simp [climateSetTemperature, hr]
        | some zs =>
          by_cases hany : zs.any (fun z => z.zoneId = some zid) = true
          · cases dev? <;>
              simp [climateSetTemperature, hr, hany, any_updateFirstZone,
                updateFirstZone_idem]
          · simp [climateSetTemperature, hr, hany]

/-- A structured zone object that carries its own `target_temperature`
(21 °C) and no remote methods. -/
def shadowStructZone : StructZone :=
  { zone_id := 1, name := none, temperature := none,
    target_temperature := some 21, operation_status := none,
    eco_offset := none, comfort_offset := none, methods := [] }

/-- A raw zone payload at 20.0 °C with a zero `heatSet` offset. -/
def plainRawZone : RawZone :=
  { zoneId := some 1, zoneName := none, operationStatus := none,
    temperatureNow := some 200, heatSet := some 0, ecoOffset := none,
    comfortOffset := none }

/-- Raw payload holding only `plainRawZone`. -/
def plainRawData : RawData :=
  { a2wName := none
    status := some { emptyRawStatus with zoneStatus := some [plainRawZone] } }

/-- A device whose structured status already exposes a zone target and
offers no remote methods (every candidate fails by absence). -/
def shadowDevice : Device :=
  { status := some { zones := some [shadowStructZone], tank := none }, methods := [] }

/-- Entry whose structured zone target shadows the raw payload. -/
def shadowedEntry : DeviceEntry :=
  { device := some shadowDevice, rawData := some plainRawData, stale := none }

/-- Entry exposing the zone only through the raw payload. -/
def plainEntry : DeviceEntry :=
  { device := some bareDevice, rawData := some plainRawData, stale := none }

/-- C1 counterexample: with every remote candidate failing (the device has
no remote methods at all), setting zone 1 of `shadowedEntry` to the valid
in-range 25 °C does not read back as 25 °C — the getter prefers the
structured `target_temperature` (21 °C), which the optimistic mutation
never touches. -/
theorem optimistic_readback_counterexample :
    (climateSetTemperature shadowedEntry 1 25).apiSuccess = false ∧
    ¬ (climateTargetTemperature
        (some (climateSetTemperature shadowedEntry 1 25).entry) 1 = some 25) := by
  constructor
  · decide
  · decide

/-- C1 (amended): for a valid in-range temperature that is a whole number
of tenths, when the entry's device is present but its structured status
exposes no target for the zone, and the zone's raw payload has a
`temperatureNow`, applying the change and immediately reading the target
temperature yields the requested value — for every remote method table,
in particular when every candidate fails; the mutation precedes the
remote phase and is never rolled back. -/
theorem optimistic_readback (e : DeviceEntry) (dev : Device) (zs : List RawZone)
    (zid : ℤ) (t : ℚ)
    (hrange : ¬ (t < -5 ∨ 30 < t))
    (htenths : (pyInt (t * 10) : ℚ) = t * 10)
    (hdev : e.device = some dev)
    (hstruct : structuredZoneTarget dev zid = none)
    (hzs : rawZonesOf e = some zs)
    (hfound : firstMatchHasTemp zs zid = true) :
    climateTargetTemperature (some (climateSetTemperature e zid t).entry) zid =
      some t := by
  obtain ⟨dev?, raw?, stale?⟩ := e
  cases raw? with
  | none => simp [rawZonesOf] at hzs
  | some raw =>
    obtain ⟨nm, rst?⟩ := raw
    cases rst? with
    | none => simp [rawZonesOf] at hzs
    | some st =>
      obtain ⟨om, fd, em, cm, zs?, tk⟩ := st
      simp only [rawZonesOf] at hzs
      subst hzs
      simp only at hdev
      subst hdev
      have hany := firstMatchHasTemp_any zs zid hfound
      simp only [climateSetTemperature, if_neg hrange, hany, if_true]
      simp only [climateTargetTemperature, hstruct, rawZonesOf,
        firstRawTarget_updateFirstZone zs zid t hfound, htenths]
      rw [mul_div_assoc]
      norm_num

/-- C1 witness: setting zone 1 of `plainEntry` (no structured target, no
remote methods, so every candidate fails) to 25 °C reads back as 25 °C. -/
theorem optimistic_readback_witness :
    climateTargetTemperature (some (climateSetTemperature plainEntry 1 25).entry) 1 =
      some 25 ∧
    (climateSetTemperature plainEntry 1 25).apiSuccess = false := by
  refine ⟨optimistic_readback plainEntry bareDevice [plainRawZone] 1 25
    (by norm_num)
    (by rw [show (25 * 10 : ℚ) = ((250 : ℤ) : ℚ) by norm_num, pyInt_intCast])
    rfl rfl rfl rfl, by decide⟩

/-- A freshly fetched entry for device B, with raw data. -/
def freshEntryB : DeviceEntry :=
  { device := none, rawData := some plainRawData, stale := none }

/-- C5 counterexample: on a tick where device A's fetch fails and device
B's succeeds, A's previous entry is retained verbatim — its (never
written) `stale` marking is not `some true`, refuting the claimed
`stale=true` marking. -/
theorem stale_marking_counterexample :
    lookupId (updateData [("A", emptyEntry)] [("A", none), ("B", some freshEntryB)])
      "A" = some emptyEntry ∧
    ¬ ((lookupId (updateData [("A", emptyEntry)] [("A", none), ("B", some freshEntryB)])
        "A").bind DeviceEntry.stale = some true) := by
  constructor
  · decide
  · decide

/-- C5 (amended): when device A's per-device fetch fails on a tick while
device B's succeeds, A's previous entry is retained byte-for-byte
unchanged (no stale marking of any kind is written) and B's entry is the
newly fetched one. -/
theorem partial_failure_isolation (prev : List (String × DeviceEntry))
    (A B : String) (eA eB : DeviceEntry) (hAB : A ≠ B)
    (hprev : lookupId prev A = some eA) :
    lookupId (updateData prev [(A, none), (B, some eB)]) A = some eA ∧
    lookupId (updateData prev [(A, none), (B, some eB)]) B = some eB := by
  constructor
  · simp [updateData, hprev, lookupId]
  · simp [updateData, hprev, lookupId, hAB]

/-- C5 witness: the two-device instance with A's fetch failing. -/
theorem partial_failure_isolation_witness :
    lookupId (updateData [("A", emptyEntry)] [("A", none), ("B", some freshEntryB)])
      "A" = some emptyEntry ∧
    lookupId (updateData [("A", emptyEntry)] [("A", none), ("B", some freshEntryB)])
      "B" = some freshEntryB :=
  partial_failure_isolation [("A", emptyEntry)] "A" "B" emptyEntry freshEntryB
    (by decide) (by decide)

/-- C6 counterexample: device A, present in the store, is absent from the
enumeration for 2 consecutive ticks (one fewer than the claimed threshold
of 3) — and is already gone, refuting the claimed retention: eviction is
immediate, there is no absence counter. -/
theorem eviction_threshold_counterexample :
    ¬ ((lookupId (updateData (updateData [("A", emptyEntry)]
          [("B", some freshEntryB)]) [("B", some freshEntryB)]) "A").isSome = true) := by
  decide

/-- C6 (amended): a device absent from the enumeration result of a single
tick is removed from the store on that tick — the fresh `devices_data`
dict is keyed only by enumerated devices. -/
theorem absent_device_evicted (prev : List (String × DeviceEntry))
    (fetched : List (String × Option DeviceEntry)) (id : String)
    (habs : ∀ p ∈ fetched, p.1 ≠ id) :
    lookupId (updateData prev fetched) id = none := by
  induction fetched with
  | nil => rfl
  | cons p rest ih =>
    obtain ⟨pid, pe?⟩ := p
    have hne : pid ≠ id := habs (pid, pe?) (by simp)
    have hrest : ∀ q ∈ rest, q.1 ≠ id := fun q hq => habs q (by simp [hq])
    cases pe? with
    | some e => simp [updateData, lookupId, hne, ih hrest]
    | none =>
      cases hl : lookupId prev pid with
      | some old => simp [updateData, hl, lookupId, hne, ih hrest]
      | none => simp [updateData, hl, ih hrest]

/-- C6 witness: device A, present in the store, vanishes from the store on
the first tick that does not enumerate it. -/
theorem absent_device_evicted_witness :
    lookupId (updateData [("A", emptyEntry)] [("B", some freshEntryB)]) "A" = none :=
  absent_device_evicted [("A", emptyEntry)] [("B", some freshEntryB)] "A"
    (by simp)

/-- C7 counterexample: after `set_zone_temperature` fails and
`set_heating_temperature` succeeds, the next candidate query still lists
the failed `set_zone_temperature` first — the successful operation is not
moved ahead of the failed one. -/
theorem capability_ranking_counterexample :
    ¬ ((rankedCandidates
          [("set_zone_temperature", false), ("set_heating_temperature", true)]).indexOf
            "set_heating_temperature" <
        (rankedCandidates
          [("set_zone_temperature", false), ("set_heating_temperature", true)]).indexOf
            "set_zone_temperature") := by
  decide

/-- C7 (amended): the candidate list is a constant function of the
recorded outcome history — operations that failed are never removed, but
they are never deprioritized either: every call retries the identical
hand-curated order. -/
theorem ranked_candidates_constant (h : List (String × Bool)) :
    rankedCandidates h = temperatureApiMethods ∧
    "set_zone_temperature" ∈ rankedCandidates h ∧
    "set_heating_temperature" ∈ rankedCandidates h :=
  ⟨rfl, by simp [rankedCandidates, temperatureApiMethods],
    by simp [rankedCandidates, temperatureApiMethods]⟩

/-- C8 counterexample: when no JSON payload is found for a device, the
coordinator substitutes the hard-coded 'Langagervej' payload and the
climate platform creates an entity for its `(1, "House")` zone — a zone
record the upstream never reported. -/
theorem zone_fabrication_counterexample :
    rawDataForDevice none = langagervejData ∧
    climateEntityZones (rawDataForDevice none) = [(1, "House")] := by
  constructor
  · rfl
  · decide

/-- C8 (amended): there is no manifest-based zone filtering: a found raw
JSON payload passes through the coordinator unfiltered, the hard-coded
'Langagervej' payload is substituted when none is found (fabricating a
zone the upstream did not report), and the climate platform then creates
entities exactly for the candidates with the hard-coded zone id 1 and a
non-empty name, dropping every other id. -/
theorem zones_hardcoded_filter (j : RawData) (st : RawStatus) (zs : List RawZone)
    (hst : j.status = some st) (hzs : st.zoneStatus = some zs) :
    rawDataForDevice (some j) = j ∧
    rawDataForDevice none = langagervejData ∧
    (∀ p ∈ climateEntityZones j, p.1 = 1) ∧
    ∀ z ∈ zs, (zoneCandidate z).1 = 1 → (zoneCandidate z).2 ≠ "" →
      zoneCandidate z ∈ climateEntityZones j := by
  refine ⟨rfl, rfl, ?_, ?_⟩
  · intro p hp
    simp only [climateEntityZones, hst, hzs, List.mem_filter,
      decide_eq_true_eq] at hp
    exact hp.2.1
  · intro z hz h1 h2
    simp only [climateEntityZones, hst, hzs, List.mem_filter, decide_eq_true_eq]
    exact ⟨List.mem_map_of_mem zoneCandidate hz, h1, h2⟩

/-- C8 witness: applied to the 'Langagervej' payload itself — its single
zone candidate `(1, "House")` passes the hard-coded id-1 filter. -/
theorem zones_hardcoded_filter_witness :
    rawDataForDevice (some langagervejData) = langagervejData ∧
    rawDataForDevice none = langagervejData ∧
    zoneCandidate langagervejZone ∈ climateEntityZones langagervejData := by
  have h := zones_hardcoded_filter langagervejData langagervejStatus
    [langagervejZone] rfl rfl
  exact ⟨h.1, h.2.1, h.2.2.2 langagervejZone (by simp) (by decide) (by decide)⟩

/-- The tank payload of the real-device data structure: 61 °C now, target
60 °C, eco preset 55 °C, comfort preset 65 °C. -/
def plainRawTank : RawTank :=
  { operationStatus := some 1, temperatureNow := some 61, heatSet := some 60,
    ecoTemp := some 55, comfortTemp := some 65 }

/-- Raw payload holding only the tank status. -/
def tankRawData : RawData :=
  { a2wName := none
    status := some { emptyRawStatus with tankStatus := some plainRawTank } }

/-- Entry for a tank-only device without a remote device object. -/
def tankEntry : DeviceEntry :=
  { device := none, rawData := some tankRawData, stale := none }

/-- C9: when a valid water-heater set-temperature call finds no usable
remote method (no candidate succeeds), the requested value is cached as
the pending temperature for the device, and every subsequent read of the
target temperature — whatever snapshot the coordinator then holds —
returns the pending value in preference to it, so the locally applied
value persists across refreshes. -/
theorem pending_temperature_shadows (ent : WaterHeaterEntity) (e : DeviceEntry)
    (tank : RawTank) (t : ℚ)
    (hrange : ¬ (t < 40 ∨ 75 < t))
    (htank : rawTankOf e = some tank)
    (hfail : whApiSuccess e = false) :
    lookupId ((whSetTemperature ent (some e) t).pending.getD []) ent.deviceId =
      some t ∧
    ∀ later : Option DeviceEntry,
      whTargetTemperature
        { ent with pending := (whSetTemperature ent (some e) t).pending } later =
        some t := by
  obtain ⟨dev?, raw?, stale?⟩ := e
  cases raw? with
  | none => simp [rawTankOf] at htank
  | some raw =>
    obtain ⟨nm, rst?⟩ := raw
    cases rst? with
    | none => simp [rawTankOf] at htank
    | some st =>
      obtain ⟨om, fd, em, cm, zsx, tk?⟩ := st
      simp only [rawTankOf] at htank
      subst htank
      cases dev? with
      | none =>
        constructor
        · simp only [whSetTemperature, if_neg hrange]
          exact lookupId_insertAssoc _ _ _
        · intro later
          simp only [whSetTemperature, if_neg hrange, whTargetTemperature,
            lookupId_insertAssoc]
      | some dev =>
        simp only [whApiSuccess] at hfail
        constructor
        · simp only [whSetTemperature, if_neg hrange, hfail, Bool.false_eq_true,
            if_false]
          exact lookupId_insertAssoc _ _ _
        · intro later
          simp only [whSetTemperature, if_neg hrange, hfail, Bool.false_eq_true,
            if_false, whTargetTemperature, lookupId_insertAssoc]

/-- C9 witness: with no device object (so no candidate method exists),
setting 55 °C caches it as pending and the read-back — even against an
empty coordinator snapshot — returns 55 °C. -/
theorem pending_temperature_shadows_witness :
    lookupId ((whSetTemperature { deviceId := "D", pending := none }
      (some tankEntry) 55).pending.getD []) "D" = some 55 ∧
    whTargetTemperature
      { deviceId := "D",
        pending := (whSetTemperature { deviceId := "D", pending := none }
          (some tankEntry) 55).pending } none = some 55 := by
  have h := pending_temperature_shadows { deviceId := "D", pending := none }
    tankEntry plainRawTank 55 (by norm_num) rfl rfl
  exact ⟨h.1, h.2 none⟩

/-- C10: after a water-heater set-operation-mode call on an entry with raw
status data, exactly the flag matching the requested mode is 1 — so at
most one of `forceDHW`, `ecoMode`, `comfortMode` is 1, and none of them
is for the normal mode — and, when a raw `tankStatus` exists, the eco and
comfort modes additionally point the tank's `heatSet` at the eco
(`ecoTemp`, default 55) or comfort (`comfortTemp`, default 65) preset. -/
theorem operation_mode_flags (dev? : Option Device) (nm : Option String)
    (st : RawStatus) (stale? : Option Bool) (mode : String) :
    ∃ st' : RawStatus,
      whSetOperationMode (some ⟨dev?, some ⟨nm, some st⟩, stale?⟩) mode =
        some ⟨dev?, some ⟨nm, some st'⟩, stale?⟩ ∧
      ((st'.forceDHW = some 1) ↔ mode = MODE_FORCE_DHW) ∧
      ((st'.ecoMode = some 1) ↔ mode = COMFORT_ECO) ∧
      ((st'.comfortMode = some 1) ↔ mode = COMFORT_COMFORT) ∧
      (∀ tank : RawTank, st.tankStatus = some tank →
        (mode = COMFORT_ECO →
          ∃ tank', st'.tankStatus = some tank' ∧
            tank'.heatSet = some (tank.ecoTemp.getD 55)) ∧
        (mode = COMFORT_COMFORT →
          ∃ tank', st'.tankStatus = some tank' ∧
            tank'.heatSet = some (tank.comfortTemp.getD 65))) := by
  cases htk : st.tankStatus with
  | none =>
    refine ⟨{ st with
        forceDHW := some (if mode = MODE_FORCE_DHW then 1 else 0)
        ecoMode := some (if mode = COMFORT_ECO then 1 else 0)
        comfortMode := some (if mode = COMFORT_COMFORT then 1 else 0) },
      ?_, some_ite_one_zero _, some_ite_one_zero _, some_ite_one_zero _, ?_⟩
    · simp only [whSetOperationMode, htk]
    · intro tank htank
      exact Option.noConfusion htank
  | some tank0 =>
    by_cases he : mode = COMFORT_ECO
    · refine ⟨{ st with
          forceDHW := some (if mode = MODE_FORCE_DHW then 1 else 0)
          ecoMode := some (if mode = COMFORT_ECO then 1 else 0)
          comfortMode := some (if mode = COMFORT_COMFORT then 1 else 0)
          tankStatus := some { tank0 with heatSet := some (tank0.ecoTemp.getD 55) } },
        ?_, some_ite_one_zero _, some_ite_one_zero _, some_ite_one_zero _, ?_⟩
      · simp only [whSetOperationMode, htk]
        rw [if_pos he]
      · intro tank htank
        injection htank with htank'
        subst htank'
        refine ⟨fun _ => ⟨_, rfl, rfl⟩,
          fun hc => absurd (he.symm.trans hc) (by decide)⟩
    · by_cases hcf : mode = COMFORT_COMFORT
      · refine ⟨{ st with
            forceDHW := some (if mode = MODE_FORCE_DHW then 1 else 0)
            ecoMode := some (if mode = COMFORT_ECO then 1 else 0)
            comfortMode := some (if mode = COMFORT_COMFORT then 1 else 0)
            tankStatus := some { tank0 with heatSet := some (tank0.comfortTemp.getD 65) } },
          ?_, some_ite_one_zero _, some_ite_one_zero _, some_ite_one_zero _, ?_⟩
        · simp only [whSetOperationMode, htk]
          rw [if_neg he, if_pos hcf]
        · intro tank htank
          injection htank with htank'
          subst htank'
          exact ⟨fun hc => absurd hc he, fun _ => ⟨_, rfl, rfl⟩⟩
      · refine ⟨{ st with
            forceDHW := some (if mode = MODE_FORCE_DHW then 1 else 0)
            ecoMode := some (if mode = COMFORT_ECO then 1 else 0)
            comfortMode := some (if mode = COMFORT_COMFORT then 1 else 0) },
          ?_, some_ite_one_zero _, some_ite_one_zero _, some_ite_one_zero _, ?_⟩
        · simp only [whSetOperationMode, htk]
          rw [if_neg he, if_neg hcf]
        · intro tank htank
          exact ⟨fun hc => absurd hc he, fun hc => absurd hc hcf⟩

/-- C10 witness: selecting eco mode on the tank entry raises only
`ecoMode` and moves `heatSet` to the 55 °C eco preset. -/
theorem operation_mode_flags_witness :
    ∃ st' : RawStatus,
      whSetOperationMode (some tankEntry) COMFORT_ECO =
        some ⟨none, some ⟨none, some st'⟩, none⟩ ∧
      st'.ecoMode = some 1 ∧
      ∃ tank', st'.tankStatus = some tank' ∧ tank'.heatSet = some 55 := by
  obtain ⟨st', heq, _hf, heco, _hc, htank⟩ := operation_mode_flags none none
    { emptyRawStatus with tankStatus := some plainRawTank } none COMFORT_ECO
  refine ⟨st', heq, heco.mpr rfl, ?_⟩
  obtain ⟨tank', ht, hh⟩ := (htank plainRawTank rfl).1 rfl
  exact ⟨tank', ht, hh.trans rfl⟩

end Aquarea
